import Mathlib

/-!
# Verification of `analyze.py` (criminal-activity-analysis skill)

Shallow embedding of `src/skills/criminal-activity-analysis/analyze.py` and
proofs about it.  Python numbers (JSON numbers / IEEE-754 binary64 floats)
are modelled as rationals: every binary64 value is a rational, Python's
comparison of two floats (or of an int and a float) is exact rational
comparison, and the only float *arithmetic* the analysis performs is the
two constant threshold products in `classify_risk`, whose exactly rounded
binary64 values are embedded as rational constants below.
-/

namespace CriminalAnalysis

/-! ## Risk classifier (`classify_risk`, `get_risk_label`) -/

/-- `PERIOD_MAX_SCORES.get(period, 200000.0)`: the per-period maximum score
table of the source, with the 200000 default for unknown period names. -/
def PERIOD_MAX_SCORES (period : String) : ℚ :=
  if period = "dawn" then 128000
  else if period = "afternoon" then 165000
  else if period = "morning" then 185000
  else if period = "night" then 300000
  else 200000

/-- `max_score * 0.70` as the source computes it, in IEEE-754 binary64
arithmetic.  For the five possible values of `max_score` the correctly
rounded products are: `128000.0 * 0.70 = 89600.0` (exact),
`165000.0 * 0.70 = 115500 - 2⁻³⁶` (rounds below the exact decimal product),
`185000.0 * 0.70 = 129500 - 2⁻³⁶` (ditto), `300000.0 * 0.70 = 210000.0`
(exact), `200000.0 * 0.70 = 140000.0` (exact).  `68719476736 = 2³⁶`. -/
def high_threshold (period : String) : ℚ :=
  if period = "dawn" then 89600
  else if period = "afternoon" then 115500 - 1/68719476736
  else if period = "morning" then 129500 - 1/68719476736
  else if period = "night" then 210000
  else 140000

/-- `max_score * 0.30` as the source computes it in binary64: all five
products (38400, 49500, 55500, 90000, 60000) round exactly. -/
def medium_threshold (period : String) : ℚ :=
  (30/100) * PERIOD_MAX_SCORES period

/-- `classify_risk(score, period)` from the source: strict comparison of the
score against the two binary64 threshold constants. -/
def classify_risk (score : ℚ) (period : String) : String :=
  if score > high_threshold period then "high"
  else if score > medium_threshold period then "medium"
  else "low"

/-- `get_risk_label(risk_level)`. -/
def get_risk_label (risk_level : String) : String :=
  if risk_level = "high" then "HIGH"
  else if risk_level = "medium" then "MEDIUM"
  else if risk_level = "low" then "LOW"
  else "UNKNOWN"

/-- Ordinal value of a risk level, ordering low < medium < high. -/
def riskOrd (r : String) : ℕ :=
  if r = "high" then 2 else if r = "medium" then 1 else 0

/-! ## Data model

JSON objects coming back from the API are modelled structurally: a field
read with `dict.get(key, default)` becomes an `Option` field (with `none`
for an absent key), dictionaries keyed by strings or integers become
association lists, which preserve insertion order exactly as Python 3
dicts do.  Crime-type ids and occurrence counts are integers in the API
schema and are modelled as `ℤ`; scores are arbitrary JSON numbers and are
modelled as `ℚ`. -/

/-- One element of a period's `occurrencesWithinCriminalDangerZones` list;
the source reads `occ.get("crimeType", 0)` and `occ.get("count", 0)`. -/
structure Occurrence where
  crimeType : Option ℤ
  count : Option ℤ
deriving DecidableEq

/-- One period sub-object of the response's `content` object. -/
structure PeriodData where
  score : Option ℚ
  scorePosition : Option ℚ
  occurrencesWithinCriminalDangerZones : List Occurrence
deriving DecidableEq

/-- The `location` object of the analysis response. -/
structure ApiLocation where
  x : Option ℚ
  y : Option ℚ
  coordinates : Option (List ℚ)
deriving DecidableEq

/-- The JSON body returned by the analysis POST endpoint.  `content` is a
JSON object keyed by period name, modelled as an association list. -/
structure ApiResponse where
  location : Option ApiLocation
  content : List (String × PeriodData)
deriving DecidableEq

/-- The JSON body returned by the crime-types GET endpoint; the source
reads `description` and `score` with `.get` and a default. -/
structure CrimeTypeJson where
  id : Option ℤ
  description : Option String
  score : Option ℤ
deriving DecidableEq

/-- The process-lifetime `CRIME_TYPE_CACHE` dict, id to crime-type JSON. -/
abbrev Cache := List (ℤ × CrimeTypeJson)

/-- Python dict assignment `CRIME_TYPE_CACHE[id] = v`: overwrite the entry
in place if the key is present, append otherwise. -/
def cacheInsert (c : Cache) (k : ℤ) (v : CrimeTypeJson) : Cache :=
  match c with
  | [] => [(k, v)]
  | (k', v') :: rest =>
      if k' = k then (k, v) :: rest else (k', v') :: cacheInsert rest k v

/-- A row of the `periods` list of the result. -/
structure PeriodReport where
  period : String
  score : ℚ
  position : ℚ
  riskLevel : String
  riskLabel : String
deriving DecidableEq

/-- A row of the `topCrimes` list of the result. -/
structure TopCrimeEntry where
  id : ℤ
  name : String
  severity : ℤ
  count : ℤ
deriving DecidableEq

/-- The `location` object of the result.  `coordinates := none` stands for
the `[None, None]` default the source substitutes for a missing key. -/
structure LocationInfo where
  query : String
  coordinates : Option (List ℚ)
  latitude : Option ℚ
  longitude : Option ℚ
deriving DecidableEq

/-- The `analysis` object of the result. -/
structure AnalysisInfo where
  overallRisk : String
  overallRiskLabel : String
  highestRiskPeriod : Option String
  periods : List PeriodReport
deriving DecidableEq

/-- The full result object returned by `analyze_location`. -/
structure AnalysisResult where
  success : Bool
  location : LocationInfo
  analysis : AnalysisInfo
  topCrimes : List TopCrimeEntry
  recommendations : List String
deriving DecidableEq

/-! ## Python exceptions and the HTTP oracle

`fetch_json` can raise `EnvironmentError` (from `get_api_key`),
`RuntimeError` (HTTP error status, transport error, JSON decode error) or
any other exception; `main` distinguishes exactly these three groups.
Network interaction is modelled by oracles: the outcome of the one
analysis POST, and a function from crime-type id to the outcome of the
corresponding types GET. -/

/-- A Python exception, as far as `main`'s handlers distinguish them. -/
inductive PyError where
  | environmentError (msg : String)
  | runtimeError (msg : String)
  | otherError (msg : String)
deriving DecidableEq

/-- `get_api_key()`: reads `CRIMINAL_ANALYSIS_API_KEY` from the
environment and raises `EnvironmentError` when `not key` — i.e. when the
variable is absent *or* set to the falsy empty string. -/
def get_api_key (env : String → Option String) : Except PyError String :=
  match env "CRIMINAL_ANALYSIS_API_KEY" with
  | none => .error (.environmentError
      "CRIMINAL_ANALYSIS_API_KEY environment variable is required")
  | some key =>
      if key = "" then
        .error (.environmentError
          "CRIMINAL_ANALYSIS_API_KEY environment variable is required")
      else .ok key

/-- The analysis POST in `analyze_location` via `fetch_json`: `fetch_json`
first attaches the API key header (so a missing key raises
`EnvironmentError` here), then performs the request, turning any HTTP,
transport or decode failure into a `RuntimeError`; `apiOutcome` is the
oracle for that network outcome. -/
def fetch_analysis (env : String → Option String)
    (apiOutcome : Except String ApiResponse) : Except PyError ApiResponse :=
  match get_api_key env with
  | .error e => .error e
  | .ok _ =>
      match apiOutcome with
      | .error msg => .error (.runtimeError msg)
      | .ok resp => .ok resp

/-- `get_crime_type(crime_type_id)` with the cache passed explicitly
instead of the Python global: return the cached entry if present;
otherwise consult the lookup oracle (the types-endpoint `fetch_json`),
caching and returning its result on success, and returning the synthetic
fallback — *without* caching it — on any exception whatsoever. -/
def get_crime_type (lookup : ℤ → Except PyError CrimeTypeJson)
    (cache : Cache) (crime_type_id : ℤ) : CrimeTypeJson × Cache :=
  match cache.lookup crime_type_id with
  | some info => (info, cache)
  | none =>
      match lookup crime_type_id with
      | .ok result => (result, cacheInsert cache crime_type_id result)
      | .error _ =>
          ({ id := some crime_type_id,
             description := some ("Crime Type #" ++ toString crime_type_id),
             score := some 1 }, cache)

/-! ## Aggregation of crime occurrences -/

/-- Effective crime-type id of an occurrence: `occ.get("crimeType", 0)`. -/
def effId (occ : Occurrence) : ℤ := occ.crimeType.getD 0

/-- Effective count of an occurrence: `occ.get("count", 0)`. -/
def effCount (occ : Occurrence) : ℤ := occ.count.getD 0

/-- `all_crimes[crime_type] = all_crimes.get(crime_type, 0) + count` on the
insertion-ordered dict `all_crimes`, modelled as an association list:
add to the entry in place when the key is present, append a fresh entry
otherwise. -/
def addCrime (acc : List (ℤ × ℤ)) (id cnt : ℤ) : List (ℤ × ℤ) :=
  match acc with
  | [] => [(id, cnt)]
  | (k, v) :: rest =>
      if k = id then (k, v + cnt) :: rest else (k, v) :: addCrime rest id cnt

/-- Fold one occurrence list into the running `all_crimes` dict. -/
def addOccurrences (acc : List (ℤ × ℤ)) (occs : List Occurrence) : List (ℤ × ℤ) :=
  occs.foldl (fun a occ => addCrime a (effId occ) (effCount occ)) acc

/-- C2 spec-side reference: the summed count of every occurrence carrying
a given effective crime-type id. -/
def totalCount (occs : List Occurrence) (id : ℤ) : ℤ :=
  ((occs.filter (fun occ => effId occ = id)).map effCount).sum

/-- Key list grown by first encounters, starting from `ks`. -/
def firstEncounterFrom (ks ids : List ℤ) : List ℤ :=
  ids.foldl (fun ks i => if i ∈ ks then ks else ks ++ [i]) ks

/-- C2 spec-side reference: distinct effective ids in the order they are
first encountered (the key order of a Python dict filled by assignment). -/
def firstEncounter (ids : List ℤ) : List ℤ :=
  firstEncounterFrom [] ids

/-! ## The stable descending sort

`sorted(all_crimes.items(), key=lambda x: x[1], reverse=True)` is Python's
stable sort by count descending: entries with equal counts keep their
original relative order (`reverse=True` does not disturb stability).  Its
observable behaviour is therefore exactly: order the entries by count
descending, breaking count ties by original position ascending.  We embed
that by annotating each entry with its position and sorting by the
resulting tie-free total preorder. -/

/-- "May come before": higher count first, equal counts ordered by
original position. -/
def sortKey (a b : ℕ × (ℤ × ℤ)) : Prop :=
  b.2.2 < a.2.2 ∨ (a.2.2 = b.2.2 ∧ a.1 ≤ b.1)

instance : DecidableRel sortKey := fun a b => by
  unfold sortKey; infer_instance

instance : IsTotal (ℕ × (ℤ × ℤ)) sortKey :=
  ⟨by
    intro a b
    unfold sortKey
    rcases lt_trichotomy a.2.2 b.2.2 with h | h | h
    · exact Or.inr (Or.inl h)
    · rcases Nat.le_total a.1 b.1 with h' | h'
      · exact Or.inl (Or.inr ⟨h, h'⟩)
      · exact Or.inr (Or.inr ⟨h.symm, h'⟩)
    · exact Or.inl (Or.inl h)⟩

instance : IsTrans (ℕ × (ℤ × ℤ)) sortKey :=
  ⟨by
    intro a b c hab hbc
    unfold sortKey at *
    rcases hab with h | ⟨he, hi⟩ <;> rcases hbc with h' | ⟨he', hi'⟩
    · exact Or.inl (h'.trans h)
    · exact Or.inl (he' ▸ h)
    · exact Or.inl (he ▸ h')
    · exact Or.inr ⟨he.trans he', hi.trans hi'⟩⟩

/-- `sorted(items, key=lambda x: x[1], reverse=True)`. -/
def pySortedByCountDesc (l : List (ℤ × ℤ)) : List (ℤ × ℤ) :=
  (List.insertionSort sortKey l.enum).map Prod.snd

/-! ## Location analysis (`analyze_location`) -/

/-- The fixed iteration order of the period loop. -/
def periodNames : List String := ["dawn", "morning", "afternoon", "night"]

/-- `TOP_CRIMES_LIMIT`. -/
def TOP_CRIMES_LIMIT : ℕ := 10

/-- The mutable state of the period loop: the growing `periods` list, the
`all_crimes` dict, and the highest-risk tracking pair. -/
structure LoopState where
  periods : List PeriodReport
  all_crimes : List (ℤ × ℤ)
  highest_risk_period : Option String
  highest_risk_score : ℚ

/-- `content.get(period_name, {})`: a missing period sub-object behaves as
an empty dict, i.e. score 0, position 0, no occurrences. -/
def contentGet (content : List (String × PeriodData)) (period_name : String) :
    PeriodData :=
  (content.lookup period_name).getD ⟨none, none, []⟩

/-- One iteration of the period loop of `analyze_location`. -/
def processPeriod (content : List (String × PeriodData)) (st : LoopState)
    (period_name : String) : LoopState :=
  let period_data := contentGet content period_name
  let score := period_data.score.getD 0
  let position := period_data.scorePosition.getD 0
  let risk_level := classify_risk score period_name
  { periods := st.periods ++
      [⟨period_name, score, position, risk_level, get_risk_label risk_level⟩]
    all_crimes :=
      addOccurrences st.all_crimes period_data.occurrencesWithinCriminalDangerZones
    highest_risk_period :=
      if score > st.highest_risk_score then some period_name
      else st.highest_risk_period
    highest_risk_score :=
      if score > st.highest_risk_score then score
      else st.highest_risk_score }

/-- The `for crime_id, count in sorted_crimes[:TOP_CRIMES_LIMIT]` loop:
resolve each id (threading the cache) and append a `TopCrimeEntry`. -/
def buildTopCrimes (lookup : ℤ → Except PyError CrimeTypeJson) :
    List (ℤ × ℤ) → Cache → List TopCrimeEntry × Cache
  | [], cache => ([], cache)
  | (crime_id, count) :: rest, cache =>
      let r := get_crime_type lookup cache crime_id
      let rec' := buildTopCrimes lookup rest r.2
      (⟨crime_id,
        r.1.description.getD ("Crime #" ++ toString crime_id),
        r.1.score.getD 1,
        count⟩ :: rec'.1, rec'.2)

/-- Advice strings of `generate_recommendations`, in source order. -/
def phoneAdvice : String :=
  "Keep mobile phones and valuables concealed, avoid using phone while walking"

def transitAdvice : String :=
  "Stay alert on public transportation, keep bags secure and in front of you"

def vehicleAdvice : String :=
  "Park in well-lit areas, never leave valuables visible in vehicles"

def pedestrianAdvice : String :=
  "Avoid walking alone in isolated areas, especially at night"

def valuablesAdvice : String :=
  "Avoid displaying expensive items like jewelry, watches, or electronics"

def extremeCautionAdvice : String :=
  "Exercise extreme caution in this area, consider alternative locations"

def generalAwarenessAdvice : String :=
  "Stay aware of your surroundings and travel in groups when possible"

def defaultAdvice : String :=
  "Stay aware of your surroundings and report suspicious activity"

/-- Whether `pat` occurs at the start of `hay` (character lists). -/
def startsWith : List Char → List Char → Bool
  | [], _ => true
  | _ :: _, [] => false
  | p :: ps, c :: cs => (p = c) && startsWith ps cs

/-- Python's substring test `pat in hay` on character lists. -/
def hasSubstr (pat : List Char) : List Char → Bool
  | [] => startsWith pat []
  | c :: cs => startsWith pat (c :: cs) || hasSubstr pat cs

/-- Python's `x in s` for strings. -/
def strContains (hay pat : String) : Bool :=
  hasSubstr pat.toList hay.toList

/-- `s.lower()`.  Lean's `Char.toLower` lowers the ASCII range; Python
additionally lowers non-ASCII letters, but every non-ASCII character in
the keyword lists below is already lower case, so the two agree on all
matches the source can perform against those keywords. -/
def pyLower (s : String) : String := String.mk (s.toList.map Char.toLower)

/-- `any(x in crime_names_str for x in kws)`. -/
def matchesAny (crime_names_str : String) (kws : List String) : Bool :=
  kws.any (fun x => strContains crime_names_str x)

/-- The first six checks of `generate_recommendations`: keyword checks 1-5
and the risk-level check, in source order, each appending at most one
advice string to the growing `recommendations` list. -/
def buildAdviceList (top_crimes : List TopCrimeEntry)
    (overall_risk : String) : List String :=
  let crime_names_str :=
    " ".intercalate (top_crimes.map (fun c => pyLower c.name))
  let recs : List String := []
  let recs := recs ++
    (if matchesAny crime_names_str ["celular", "celphone", "phone", "telefone"]
     then [phoneAdvice] else [])
  let recs := recs ++
    (if matchesAny crime_names_str
        ["transporte", "transport", "ônibus", "bus", "metrô", "metro"]
     then [transitAdvice] else [])
  let recs := recs ++
    (if matchesAny crime_names_str ["veículo", "vehicle", "carro", "car", "moto"]
     then [vehicleAdvice] else [])
  let recs := recs ++
    (if matchesAny crime_names_str ["pedestre", "pedestrian", "transeunte"]
     then [pedestrianAdvice] else [])
  let recs := recs ++
    (if matchesAny crime_names_str ["roubo", "robbery", "furto", "theft"]
     then [valuablesAdvice] else [])
  recs ++
    (if overall_risk = "high" then [extremeCautionAdvice]
     else if overall_risk = "medium" then [generalAwarenessAdvice] else [])

/-- `generate_recommendations(top_crimes, overall_risk)`: the six checks
above followed by the seventh, which appends the default advisory exactly
when the list is still empty. -/
def generate_recommendations (top_crimes : List TopCrimeEntry)
    (overall_risk : String) : List String :=
  let recommendations := buildAdviceList top_crimes overall_risk
  if recommendations = [] then recommendations ++ [defaultAdvice]
  else recommendations

/-- `analyze_location(address)` given the already-fetched analysis
response and the crime-type lookup oracle; returns the result object and
the cache as it stands after the top-crimes loop. -/
def analyze_location (lookup : ℤ → Except PyError CrimeTypeJson)
    (cache : Cache) (address : String) (response : ApiResponse) :
    AnalysisResult × Cache :=
  let location := response.location
  let content := response.content
  let st := periodNames.foldl (processPeriod content)
    ⟨[], [], none, -1⟩
  let sorted_crimes := pySortedByCountDesc st.all_crimes
  let tc := buildTopCrimes lookup (sorted_crimes.take TOP_CRIMES_LIMIT) cache
  let overall_risk :=
    match st.highest_risk_period with
    | some p => classify_risk st.highest_risk_score p
    | none => "low"
  ({ success := true
     location :=
      { query := address
        coordinates := (location.map ApiLocation.coordinates).getD none
        latitude := (location.map ApiLocation.y).getD none
        longitude := (location.map ApiLocation.x).getD none }
     analysis :=
      { overallRisk := overall_risk
        overallRiskLabel := get_risk_label overall_risk
        highestRiskPeriod := st.highest_risk_period
        periods := st.periods }
     topCrimes := tc.1
     recommendations := generate_recommendations tc.1 overall_risk }, tc.2)

/-! ## `main` -/

/-- What `main` observably does: the process exit code, the result object
whose JSON serialization is printed to stdout (if any), and the error
kind and message of the JSON object printed to stderr (if any). -/
structure MainOutcome where
  exitCode : ℕ
  stdout : Option AnalysisResult
  stderrError : Option (String × String)
deriving DecidableEq

/-- `main()` after successful argument parsing: run the analysis and map
each exception class to its error kind and exit code 1, or print the
result and return 0. -/
def main_run (env : String → Option String)
    (apiOutcome : Except String ApiResponse)
    (lookup : ℤ → Except PyError CrimeTypeJson) (address : String) :
    MainOutcome :=
  match fetch_analysis env apiOutcome with
  | .ok response =>
      { exitCode := 0
        stdout := some (analyze_location lookup [] address response).1
        stderrError := none }
  | .error (.environmentError msg) =>
      { exitCode := 1, stdout := none,
        stderrError := some ("configuration_error", msg) }
  | .error (.runtimeError msg) =>
      { exitCode := 1, stdout := none,
        stderrError := some ("api_error", msg) }
  | .error (.otherError msg) =>
      { exitCode := 1, stdout := none,
        stderrError := some ("unexpected_error", msg) }

/-! ## Spec-side reference definitions -/

/-- All occurrences the period loop walks, in walk order: the occurrence
lists of the four fixed periods concatenated. -/
def allOccurrences (response : ApiResponse) : List Occurrence :=
  (periodNames.map
    (fun n => (contentGet response.content n).occurrencesWithinCriminalDangerZones)).flatten

/-- The effective score of a period: `content` sub-object's score with the
missing-key and missing-field defaults applied. -/
def periodScore (response : ApiResponse) (period_name : String) : ℚ :=
  ((contentGet response.content period_name).score).getD 0

/-- The id/count pairs that reach the top-crimes loop. -/
def topPairs (response : ApiResponse) : List (ℤ × ℤ) :=
  (pySortedByCountDesc
    (addOccurrences [] (allOccurrences response))).take TOP_CRIMES_LIMIT

/-- The `PeriodReport` one loop iteration builds for a period. -/
def mkPeriodReport (content : List (String × PeriodData)) (period_name : String) :
    PeriodReport :=
  let period_data := contentGet content period_name
  let score := period_data.score.getD 0
  let risk_level := classify_risk score period_name
  ⟨period_name, score, period_data.scorePosition.getD 0, risk_level,
    get_risk_label risk_level⟩

/-- The synthetic fallback `TopCrimeEntry` produced when the crime-type
lookup for `id` fails. -/
def fallbackEntry (id cnt : ℤ) : TopCrimeEntry :=
  ⟨id, "Crime Type #" ++ toString id, 1, cnt⟩

/-! ## Concrete test fixtures -/

/-- A crime-type lookup oracle that always fails with a network error. -/
def failingLookup : ℤ → Except PyError CrimeTypeJson :=
  fun _ => .error (.runtimeError "Network error: simulated")

/-- A response with a single night period: score 250000, three occurrences
of two distinct crime types. -/
def sampleResponse : ApiResponse :=
  ⟨none,
   [("night",
     { score := some 250000
       scorePosition := some 1
       occurrencesWithinCriminalDangerZones :=
         [⟨some 1, some 5⟩, ⟨some 2, some 3⟩, ⟨some 1, some 4⟩] })]⟩

/-- An empty response: no location, empty content object. -/
def emptyResponse : ApiResponse := ⟨none, []⟩

/-- A response whose four periods all carry the score -2 — legal JSON,
below the -1 sentinel of the highest-risk tracking. -/
def negativeResponse : ApiResponse :=
  ⟨none,
   [("dawn", ⟨some (-2), none, []⟩), ("morning", ⟨some (-2), none, []⟩),
    ("afternoon", ⟨some (-2), none, []⟩), ("night", ⟨some (-2), none, []⟩)]⟩

/-- A response where dawn and night tie with the equal highest score. -/
def tieResponse : ApiResponse :=
  ⟨none,
   [("dawn", ⟨some 100, none, []⟩), ("night", ⟨some 100, none, []⟩)]⟩

/-! ## Theorems -/

/-! ### The stable descending sort -/

theorem pySorted_perm (l : List (ℤ × ℤ)) : List.Perm (pySortedByCountDesc l) l := by
  unfold pySortedByCountDesc
  have h1 : List.Perm ((List.insertionSort sortKey l.enum).map Prod.snd) (l.enum.map Prod.snd) :=
    (List.perm_insertionSort sortKey l.enum).map Prod.snd
  rwa [show l.enum.map Prod.snd = l from List.enumFrom_map_snd 0 l] at h1

theorem nodup_enum (l : List (ℤ × ℤ)) : l.enum.Nodup :=
  (List.nodup_enum_map_fst l).of_map

/-- The sorted list is pairwise ordered by count descending, counts tied
broken by position of the key in the (nodup) key list of the input. -/
theorem pySorted_pairwise (l : List (ℤ × ℤ)) (hn : (l.map Prod.fst).Nodup) :
    List.Pairwise
      (fun p q : ℤ × ℤ => q.2 < p.2 ∨
        (p.2 = q.2 ∧
          (l.map Prod.fst).indexOf p.1 < (l.map Prod.fst).indexOf q.1))
      (pySortedByCountDesc l) := by
  unfold pySortedByCountDesc
  rw [List.pairwise_map]
  have hsorted : List.Pairwise sortKey (List.insertionSort sortKey l.enum) :=
    List.sorted_insertionSort sortKey l.enum
  have hperm : List.Perm (List.insertionSort sortKey l.enum) l.enum :=
    List.perm_insertionSort _ _
  have hnodup : (List.insertionSort sortKey l.enum).Nodup :=
    hperm.nodup_iff.mpr (nodup_enum l)
  refine (hsorted.and hnodup).imp_of_mem ?_
  rintro ⟨i, p⟩ ⟨j, q⟩ ha hb ⟨hkey, hne⟩
  have ha' : (i, p) ∈ l.enum := hperm.subset ha
  have hb' : (j, q) ∈ l.enum := hperm.subset hb
  have hip := List.mk_mem_enum_iff_getElem?.mp ha'
  have hjq := List.mk_mem_enum_iff_getElem?.mp hb'
  obtain ⟨hilen, hpi⟩ := List.getElem?_eq_some_iff.mp hip
  obtain ⟨hjlen, hqj⟩ := List.getElem?_eq_some_iff.mp hjq
  rcases hkey with hlt | ⟨heq, hle⟩
  · exact Or.inl hlt
  · refine Or.inr ⟨heq, ?_⟩
    have hij : i < j := by
      rcases lt_or_eq_of_le hle with h | h
      · exact h
      · exfalso
        subst h
        exact hne (by rw [Prod.mk.injEq]; exact ⟨rfl, hpi ▸ hqj⟩)
    have hkeyi : (l.map Prod.fst).indexOf p.1 = i := by
      have hp1 : p.1 = (l.map Prod.fst).get ⟨i, by simpa using hilen⟩ := by
        simp [List.get_eq_getElem, hpi]
      rw [hp1]
      exact List.get_indexOf hn ⟨i, by simpa using hilen⟩
    have hkeyj : (l.map Prod.fst).indexOf q.1 = j := by
      have hq1 : q.1 = (l.map Prod.fst).get ⟨j, by simpa using hjlen⟩ := by
        simp [List.get_eq_getElem, hqj]
      rw [hq1]
      exact List.get_indexOf hn ⟨j, by simpa using hjlen⟩
    rw [hkeyi, hkeyj]
    exact hij

/-! ### The top-crimes loop -/

theorem buildTopCrimes_map_id_count (lookup : ℤ → Except PyError CrimeTypeJson)
    (l : List (ℤ × ℤ)) (c : Cache) :
    ((buildTopCrimes lookup l c).1).map (fun e => (e.id, e.count)) = l := by
  induction l generalizing c with
  | nil => simp [buildTopCrimes]
  | cons p rest ih =>
    obtain ⟨k, v⟩ := p
    simp [buildTopCrimes, ih]

theorem buildTopCrimes_length (lookup : ℤ → Except PyError CrimeTypeJson)
    (l : List (ℤ × ℤ)) (c : Cache) :
    (buildTopCrimes lookup l c).1.length = l.length := by
  have h := congrArg List.length (buildTopCrimes_map_id_count lookup l c)
  simpa using h

/-! ### The `all_crimes` dict -/

theorem addCrime_map_fst (acc : List (ℤ × ℤ)) (id cnt : ℤ) :
    (addCrime acc id cnt).map Prod.fst =
      if id ∈ acc.map Prod.fst then acc.map Prod.fst
      else acc.map Prod.fst ++ [id] := by
  induction acc with
  | nil => simp [addCrime]
  | cons p rest ih =>
    obtain ⟨k, v⟩ := p
    by_cases hk : k = id
    · subst hk
      simp [addCrime]
    · by_cases hmem : id ∈ rest.map Prod.fst <;>
        simp [addCrime, hk, ih, hmem, Ne.symm hk]

theorem addCrime_lookup (acc : List (ℤ × ℤ)) (id cnt j : ℤ) :
    (addCrime acc id cnt).lookup j =
      if j = id then some ((acc.lookup j).getD 0 + cnt) else acc.lookup j := by
  induction acc with
  | nil =>
    by_cases h : j = id
    · subst h
      simp [addCrime, List.lookup]
    · have hb : (j == id) = false := beq_eq_false_iff_ne.mpr h
      simp [addCrime, List.lookup, h, hb]
  | cons p rest ih =>
    obtain ⟨k, v⟩ := p
    by_cases hk : k = id
    · subst hk
      by_cases hj : j = k
      · subst hj
        simp [addCrime, List.lookup_cons]
      · have hb : (j == k) = false := beq_eq_false_iff_ne.mpr hj
        simp [addCrime, List.lookup_cons, hj, hb]
    · by_cases hj : j = k
      · have hb : (j == k) = true := beq_iff_eq.mpr hj
        have hjid : ¬ j = id := by rw [hj]; exact hk
        simp [addCrime, hk, List.lookup_cons, hb, hjid]
      · have hb : (j == k) = false := beq_eq_false_iff_ne.mpr hj
        simp [addCrime, hk, List.lookup_cons, hb, ih]

theorem totalCount_cons (o : Occurrence) (rest : List Occurrence) (j : ℤ) :
    totalCount (o :: rest) j =
      (if effId o = j then effCount o else 0) + totalCount rest j := by
  by_cases h : effId o = j <;> simp [totalCount, h]

theorem addOccurrences_cons (acc : List (ℤ × ℤ)) (o : Occurrence)
    (rest : List Occurrence) :
    addOccurrences acc (o :: rest) =
      addOccurrences (addCrime acc (effId o) (effCount o)) rest := rfl

theorem addOccurrences_append (acc : List (ℤ × ℤ)) (xs ys : List Occurrence) :
    addOccurrences acc (xs ++ ys) = addOccurrences (addOccurrences acc xs) ys := by
  simp [addOccurrences, List.foldl_append]

theorem addOccurrences_lookup (occs : List Occurrence) (acc : List (ℤ × ℤ))
    (j : ℤ) :
    ((addOccurrences acc occs).lookup j).getD 0 =
      (acc.lookup j).getD 0 + totalCount occs j := by
  induction occs generalizing acc with
  | nil => simp [addOccurrences, totalCount]
  | cons o rest ih =>
    rw [addOccurrences_cons, ih, addCrime_lookup, totalCount_cons]
    rcases eq_or_ne j (effId o) with h | h
    · subst h
      simp [add_assoc]
    · simp [h, Ne.symm h]

theorem addOccurrences_map_fst (occs : List Occurrence) (acc : List (ℤ × ℤ)) :
    (addOccurrences acc occs).map Prod.fst =
      firstEncounterFrom (acc.map Prod.fst) (occs.map effId) := by
  induction occs generalizing acc with
  | nil => simp [addOccurrences, firstEncounterFrom]
  | cons o rest ih =>
    rw [addOccurrences_cons, ih, addCrime_map_fst]
    simp [firstEncounterFrom]

theorem nodup_firstEncounterFrom (ids : List ℤ) (ks : List ℤ) (h : ks.Nodup) :
    (firstEncounterFrom ks ids).Nodup := by
  induction ids generalizing ks with
  | nil => simpa [firstEncounterFrom]
  | cons i rest ih =>
    simp only [firstEncounterFrom, List.foldl_cons]
    by_cases hi : i ∈ ks
    · simpa [firstEncounterFrom, hi] using ih ks h
    · simpa [firstEncounterFrom, hi] using
        ih (ks ++ [i]) (by simp [List.nodup_append, h, hi])

theorem mem_firstEncounterFrom (ids : List ℤ) (ks : List ℤ) (j : ℤ) :
    j ∈ firstEncounterFrom ks ids ↔ j ∈ ks ∨ j ∈ ids := by
  induction ids generalizing ks with
  | nil => simp [firstEncounterFrom]
  | cons i rest ih =>
    simp only [firstEncounterFrom, List.foldl_cons]
    by_cases hi : i ∈ ks
    · rw [if_pos hi, show List.foldl _ ks rest = firstEncounterFrom ks rest from rfl,
        ih]
      constructor
      · rintro (h | h)
        · exact Or.inl h
        · exact Or.inr (List.mem_cons_of_mem _ h)
      · rintro (h | h)
        · exact Or.inl h
        · rcases List.mem_cons.mp h with rfl | h
          · exact Or.inl hi
          · exact Or.inr h
    · rw [if_neg hi,
        show List.foldl _ (ks ++ [i]) rest = firstEncounterFrom (ks ++ [i]) rest
          from rfl, ih]
      simp only [List.mem_append, List.mem_singleton, List.mem_cons]
      tauto

theorem lookup_isSome_iff_mem_keys (l : List (ℤ × ℤ)) (j : ℤ) :
    (l.lookup j).isSome ↔ j ∈ l.map Prod.fst := by
  simp only [List.lookup_isSome_iff, beq_iff_eq, List.mem_map]
  constructor
  · rintro ⟨p, hp, rfl⟩
    exact ⟨p, hp, rfl⟩
  · rintro ⟨p, hp, rfl⟩
    exact ⟨p, hp, rfl⟩

theorem lookup_of_mem_of_nodup_keys (l : List (ℤ × ℤ))
    (hn : (l.map Prod.fst).Nodup) (k v : ℤ) (h : (k, v) ∈ l) :
    l.lookup k = some v := by
  induction l with
  | nil => simp at h
  | cons p rest ih =>
    obtain ⟨k', v'⟩ := p
    rcases List.mem_cons.mp h with heq | hmem
    · cases heq
      simp
    · have hk : k ≠ k' := by
        rintro rfl
        exact (List.nodup_cons.mp hn).1
          (List.mem_map.mpr ⟨(k, v), hmem, rfl⟩)
      have hb : (k == k') = false := beq_eq_false_iff_ne.mpr hk
      simp only [List.lookup_cons, hb]
      exact ih (List.nodup_cons.mp hn).2 hmem

theorem PERIOD_MAX_SCORES_afternoon : PERIOD_MAX_SCORES "afternoon" = 165000 := rfl

theorem PERIOD_MAX_SCORES_night : PERIOD_MAX_SCORES "night" = 300000 := rfl

theorem high_threshold_afternoon :
    high_threshold "afternoon" = 115500 - 1/68719476736 := rfl

theorem high_threshold_night : high_threshold "night" = 210000 := rfl

/-- The medium threshold is strictly below the high threshold for every
period name. -/
theorem medium_threshold_lt_high_threshold (period : String) :
    medium_threshold period < high_threshold period := by
  unfold medium_threshold high_threshold PERIOD_MAX_SCORES
  split_ifs <;> norm_num

/-- C1 counterexample: in period "afternoon" a score of exactly 115500 —
which is *not* strictly greater than the exact product `0.70 × 165000` —
is nevertheless classified "high", because the binary64 product
`165000.0 * 0.70` rounds to `115500 - 2⁻³⁶`, strictly below the exact
decimal threshold. -/
theorem classify_risk_exact_boundary_afternoon_high :
    classify_risk 115500 "afternoon" = "high" ∧
      ¬ ((115500 : ℚ) > (70/100) * PERIOD_MAX_SCORES "afternoon") := by
  constructor
  · norm_num [classify_risk, high_threshold_afternoon, medium_threshold,
      PERIOD_MAX_SCORES_afternoon]
  · norm_num [PERIOD_MAX_SCORES_afternoon]

/-- C1 (amended): `classify_risk` returns "high" iff the score strictly
exceeds the binary64 high threshold, "medium" iff it is at most that but
strictly exceeds the medium threshold, and "low" otherwise.  The medium
threshold is exactly `0.30 ×` the period maximum for every period, and the
high threshold is exactly `0.70 ×` the period maximum except for
"afternoon" and "morning", where it falls short of the exact product by
`2⁻³⁶`.  All four "night" boundary examples of the claim hold as stated. -/
theorem classify_risk_spec (score : ℚ) (period : String) :
    (classify_risk score period = "high" ↔ score > high_threshold period)
    ∧ (classify_risk score period = "medium" ↔
        score ≤ high_threshold period ∧ score > medium_threshold period)
    ∧ (classify_risk score period = "low" ↔ score ≤ medium_threshold period)
    ∧ medium_threshold period = (30/100) * PERIOD_MAX_SCORES period
    ∧ high_threshold period = (70/100) * PERIOD_MAX_SCORES period -
        (if period = "afternoon" ∨ period = "morning" then 1/68719476736 else 0)
    ∧ classify_risk 210001 "night" = "high"
    ∧ classify_risk 210000 "night" = "medium"
    ∧ classify_risk 90001 "night" = "medium"
    ∧ classify_risk 90000 "night" = "low" := by
  have hmh := medium_threshold_lt_high_threshold period
  refine ⟨?_, ?_, ?_, rfl, ?_,
    by norm_num [classify_risk, high_threshold_night, medium_threshold,
      PERIOD_MAX_SCORES_night],
    by norm_num [classify_risk, high_threshold_night, medium_threshold,
      PERIOD_MAX_SCORES_night],
    by norm_num [classify_risk, high_threshold_night, medium_threshold,
      PERIOD_MAX_SCORES_night],
    by norm_num [classify_risk, high_threshold_night, medium_threshold,
      PERIOD_MAX_SCORES_night]⟩
  · unfold classify_risk
    split_ifs with h1 h2 <;> simp_all <;> linarith
  · unfold classify_risk
    split_ifs with h1 h2 <;> simp_all <;> linarith
  · unfold classify_risk
    split_ifs with h1 h2 <;> simp_all <;> linarith
  · unfold high_threshold PERIOD_MAX_SCORES
    split_ifs with h1 h2 h3 h4 <;> simp_all <;> norm_num

/-- C10: for a fixed period, `classify_risk` is monotone in the score under
the ordering low < medium < high. -/
theorem classify_risk_monotone (period : String) (s₁ s₂ : ℚ) (h : s₁ ≤ s₂) :
    riskOrd (classify_risk s₁ period) ≤ riskOrd (classify_risk s₂ period) := by
  unfold classify_risk
  split_ifs <;> first | decide | (exfalso; linarith)

/-- Witness for C10 at a concrete input. -/
theorem classify_risk_monotone_witness :
    (89000 : ℚ) ≤ 910000 ∧
      riskOrd (classify_risk 89000 "night") ≤ riskOrd (classify_risk 910000 "night") :=
  ⟨by norm_num, classify_risk_monotone "night" 89000 910000 (by norm_num)⟩

/-! ### Unfolding the period loop -/

theorem loop_all_crimes (content : List (String × PeriodData)) :
    (periodNames.foldl (processPeriod content) ⟨[], [], none, -1⟩).all_crimes =
      addOccurrences []
        ((periodNames.map
          (fun n => (contentGet content n).occurrencesWithinCriminalDangerZones)).flatten) := by
  simp [periodNames, processPeriod, addOccurrences_append]

theorem loop_periods (content : List (String × PeriodData)) :
    (periodNames.foldl (processPeriod content) ⟨[], [], none, -1⟩).periods =
      periodNames.map (mkPeriodReport content) := by
  simp [periodNames, processPeriod, mkPeriodReport]

theorem analyze_topCrimes_eq (lookup : ℤ → Except PyError CrimeTypeJson)
    (cache : Cache) (address : String) (resp : ApiResponse) :
    (analyze_location lookup cache address resp).1.topCrimes =
      (buildTopCrimes lookup (topPairs resp) cache).1 := by
  show (buildTopCrimes lookup
    ((pySortedByCountDesc
      (periodNames.foldl (processPeriod resp.content) ⟨[], [], none, -1⟩).all_crimes).take
      TOP_CRIMES_LIMIT) cache).1 = _
  rw [loop_all_crimes]
  rfl

theorem analyze_periods_eq (lookup : ℤ → Except PyError CrimeTypeJson)
    (cache : Cache) (address : String) (resp : ApiResponse) :
    (analyze_location lookup cache address resp).1.analysis.periods =
      periodNames.map (mkPeriodReport resp.content) := by
  show (periodNames.foldl (processPeriod resp.content) ⟨[], [], none, -1⟩).periods = _
  exact loop_periods resp.content

theorem analyze_hrp_eq (lookup : ℤ → Except PyError CrimeTypeJson)
    (cache : Cache) (address : String) (resp : ApiResponse) :
    (analyze_location lookup cache address resp).1.analysis.highestRiskPeriod =
      (periodNames.foldl (processPeriod resp.content)
        ⟨[], [], none, -1⟩).highest_risk_period := rfl

/-- C4: for every API response — in particular one with an empty or partial
content object — the result's periods list consists of exactly the four
fixed period names in the fixed order dawn, morning, afternoon, night, and
a report whose period sub-object is missing carries score 0 and position 0. -/
theorem periods_fixed_four (lookup : ℤ → Except PyError CrimeTypeJson)
    (cache : Cache) (address : String) (resp : ApiResponse) :
    ((analyze_location lookup cache address resp).1.analysis.periods.map
        (fun r => r.period) = ["dawn", "morning", "afternoon", "night"])
    ∧ ∀ r ∈ (analyze_location lookup cache address resp).1.analysis.periods,
        resp.content.lookup r.period = none → r.score = 0 ∧ r.position = 0 := by
  constructor
  · rw [analyze_periods_eq]
    simp [periodNames, mkPeriodReport]
  · intro r hr hnone
    rw [analyze_periods_eq] at hr
    obtain ⟨n, hn, rfl⟩ := List.mem_map.mp hr
    have hp : (mkPeriodReport resp.content n).period = n := rfl
    rw [hp] at hnone
    constructor
    · show ((contentGet resp.content n).score).getD 0 = 0
      simp [contentGet, hnone]
    · show ((contentGet resp.content n).scorePosition).getD 0 = 0
      simp [contentGet, hnone]

/-- Witness for C4 at the empty response. -/
theorem periods_fixed_four_witness :
    ((analyze_location failingLookup [] "Praca da Republica"
        emptyResponse).1.analysis.periods.map (fun r => r.period) =
      ["dawn", "morning", "afternoon", "night"])
    ∧ (mkPeriodReport emptyResponse.content "dawn").score = 0
    ∧ (mkPeriodReport emptyResponse.content "dawn").position = 0 := by
  refine ⟨(periods_fixed_four failingLookup [] "Praca da Republica" emptyResponse).1, ?_⟩
  have hmem : mkPeriodReport emptyResponse.content "dawn" ∈
      (analyze_location failingLookup [] "Praca da Republica"
        emptyResponse).1.analysis.periods := by
    rw [analyze_periods_eq]
    exact List.mem_map.mpr ⟨"dawn", by simp [periodNames], rfl⟩
  exact (periods_fixed_four failingLookup [] "Praca da Republica" emptyResponse).2
    (mkPeriodReport emptyResponse.content "dawn") hmem rfl

/-! ### C2: the top-crimes list -/

theorem agg_keys_eq (resp : ApiResponse) :
    (addOccurrences [] (allOccurrences resp)).map Prod.fst =
      firstEncounter ((allOccurrences resp).map effId) := by
  rw [addOccurrences_map_fst]
  simp [firstEncounter]

theorem agg_keys_nodup (resp : ApiResponse) :
    ((addOccurrences [] (allOccurrences resp)).map Prod.fst).Nodup := by
  rw [agg_keys_eq]
  exact nodup_firstEncounterFrom _ [] (by simp)

theorem firstEncounter_length_eq_dedup (ids : List ℤ) :
    (firstEncounter ids).length = ids.dedup.length := by
  have hnodup : (firstEncounter ids).Nodup := nodup_firstEncounterFrom ids [] (by simp)
  have hmem : ∀ j, j ∈ firstEncounter ids ↔ j ∈ ids := fun j => by
    simpa [firstEncounter] using mem_firstEncounterFrom ids [] j
  have hfin : (firstEncounter ids).toFinset = ids.toFinset :=
    Finset.ext fun j => by simp [List.mem_toFinset, hmem]
  calc (firstEncounter ids).length
      = (firstEncounter ids).toFinset.card := (List.toFinset_card_of_nodup hnodup).symm
    _ = ids.toFinset.card := by rw [hfin]
    _ = ids.dedup.length := List.card_toFinset ids

/-- C2: every entry of `topCrimes` carries the summed count (with the 0
defaults for missing fields) of every occurrence of its crime-type id
across the four periods; the list is pairwise ordered by summed count
descending with ties broken by the order in which ids were first
encountered during aggregation; and its length is
min(10, number of distinct crime-type ids encountered). -/
theorem topCrimes_spec (lookup : ℤ → Except PyError CrimeTypeJson)
    (cache : Cache) (address : String) (resp : ApiResponse) :
    (∀ e ∈ (analyze_location lookup cache address resp).1.topCrimes,
        e.count = totalCount (allOccurrences resp) e.id)
    ∧ List.Pairwise
        (fun e1 e2 : TopCrimeEntry => e2.count < e1.count ∨
          (e1.count = e2.count ∧
            (firstEncounter ((allOccurrences resp).map effId)).indexOf e1.id <
              (firstEncounter ((allOccurrences resp).map effId)).indexOf e2.id))
        (analyze_location lookup cache address resp).1.topCrimes
    ∧ (analyze_location lookup cache address resp).1.topCrimes.length =
        min TOP_CRIMES_LIMIT (((allOccurrences resp).map effId).dedup.length) := by
  have htc := analyze_topCrimes_eq lookup cache address resp
  have hmapid := buildTopCrimes_map_id_count lookup (topPairs resp) cache
  refine ⟨?_, ?_, ?_⟩
  · intro e he
    rw [htc] at he
    have hpair : (e.id, e.count) ∈ topPairs resp := by
      rw [← hmapid]
      exact List.mem_map_of_mem _ he
    have h1 : (e.id, e.count) ∈
        pySortedByCountDesc (addOccurrences [] (allOccurrences resp)) :=
      List.take_subset _ _ hpair
    have h2 : (e.id, e.count) ∈ addOccurrences [] (allOccurrences resp) :=
      (pySorted_perm _).subset h1
    have h3 : (addOccurrences [] (allOccurrences resp)).lookup e.id = some e.count :=
      lookup_of_mem_of_nodup_keys _ (agg_keys_nodup resp) _ _ h2
    have h4 := addOccurrences_lookup (allOccurrences resp) [] e.id
    rw [h3] at h4
    simpa using h4
  · rw [htc]
    have hp := pySorted_pairwise (addOccurrences [] (allOccurrences resp))
      (agg_keys_nodup resp)
    rw [agg_keys_eq] at hp
    have hp2 := hp.sublist (List.take_sublist TOP_CRIMES_LIMIT _)
    have hp3 : List.Pairwise
        (fun p q : ℤ × ℤ => q.2 < p.2 ∨
          (p.2 = q.2 ∧
            (firstEncounter ((allOccurrences resp).map effId)).indexOf p.1 <
              (firstEncounter ((allOccurrences resp).map effId)).indexOf q.1))
        (((buildTopCrimes lookup (topPairs resp) cache).1).map
          (fun e => (e.id, e.count))) := by
      rw [hmapid]
      exact hp2
    exact List.pairwise_map.mp hp3
  · rw [htc, buildTopCrimes_length]
    show (topPairs resp).length = _
    unfold topPairs
    rw [List.length_take, (pySorted_perm _).length_eq]
    have hlen : (addOccurrences [] (allOccurrences resp)).length =
        (firstEncounter ((allOccurrences resp).map effId)).length := by
      rw [← agg_keys_eq]
      simp
    rw [hlen, firstEncounter_length_eq_dedup]

/-- Witness for C2 on a concrete response: ids 1 and 2, counts 9 and 3. -/
theorem topCrimes_spec_witness :
    ((fallbackEntry 1 9).count =
      totalCount (allOccurrences sampleResponse) (fallbackEntry 1 9).id)
    ∧ List.Pairwise
        (fun e1 e2 : TopCrimeEntry => e2.count < e1.count ∨
          (e1.count = e2.count ∧
            (firstEncounter ((allOccurrences sampleResponse).map effId)).indexOf e1.id <
              (firstEncounter ((allOccurrences sampleResponse).map effId)).indexOf e2.id))
        (analyze_location failingLookup [] "Praca" sampleResponse).1.topCrimes
    ∧ (analyze_location failingLookup [] "Praca" sampleResponse).1.topCrimes.length =
        min TOP_CRIMES_LIMIT
          (((allOccurrences sampleResponse).map effId).dedup.length) := by
  have h := topCrimes_spec failingLookup [] "Praca" sampleResponse
  refine ⟨h.1 (fallbackEntry 1 9) ?_, h.2.1, h.2.2⟩
  rw [analyze_topCrimes_eq]
  decide

/-! ### C3: crime-type lookup failures are swallowed -/

theorem lookup_cacheInsert_ne (c : Cache) (k : ℤ) (v : CrimeTypeJson) (j : ℤ)
    (h : j ≠ k) : (cacheInsert c k v).lookup j = c.lookup j := by
  have hb : (j == k) = false := beq_eq_false_iff_ne.mpr h
  induction c with
  | nil => simp [cacheInsert, List.lookup, hb]
  | cons p rest ih =>
    obtain ⟨k', v'⟩ := p
    by_cases hk : k' = k
    · subst hk
      have hb' : (j == k') = false := hb
      simp [cacheInsert, List.lookup_cons, hb']
    · by_cases hj : j = k'
      · have hb' : (j == k') = true := beq_iff_eq.mpr hj
        simp [cacheInsert, hk, List.lookup_cons, hb']
      · have hb' : (j == k') = false := beq_eq_false_iff_ne.mpr hj
        simp [cacheInsert, hk, List.lookup_cons, hb', ih]

theorem buildTopCrimes_cons (lookup : ℤ → Except PyError CrimeTypeJson)
    (k v : ℤ) (rest : List (ℤ × ℤ)) (c : Cache) :
    (buildTopCrimes lookup ((k, v) :: rest) c).1 =
      ⟨k, ((get_crime_type lookup c k).1).description.getD ("Crime #" ++ toString k),
        ((get_crime_type lookup c k).1).score.getD 1, v⟩ ::
      (buildTopCrimes lookup rest (get_crime_type lookup c k).2).1 := rfl

theorem buildTopCrimes_fallback_mem (lookup : ℤ → Except PyError CrimeTypeJson)
    (id : ℤ) (e : PyError) (hfail : lookup id = .error e) :
    ∀ (l : List (ℤ × ℤ)) (c : Cache), c.lookup id = none →
      ∀ cnt, (id, cnt) ∈ l →
        fallbackEntry id cnt ∈ (buildTopCrimes lookup l c).1 := by
  intro l
  induction l with
  | nil =>
    intro c _ cnt h
    simp at h
  | cons p rest ih =>
    intro c hc cnt hmem
    obtain ⟨k, v⟩ := p
    rcases List.mem_cons.mp hmem with heq | hrest
    · cases heq
      have hg : get_crime_type lookup c id =
          (⟨some id, some ("Crime Type #" ++ toString id), some 1⟩, c) := by
        simp [get_crime_type, hc, hfail]
      rw [buildTopCrimes_cons, hg]
      exact List.mem_cons_self _ _
    · have hc' : ((get_crime_type lookup c k).2).lookup id = none := by
        by_cases hk : k = id
        · subst hk
          simp [get_crime_type, hc, hfail]
        · unfold get_crime_type
          cases hcl : c.lookup k with
          | some info => simpa using hc
          | none =>
            cases hlk : lookup k with
            | ok r =>
              simpa [lookup_cacheInsert_ne c k r id fun hh => hk hh.symm] using hc
            | error e2 => simpa using hc
      rw [buildTopCrimes_cons]
      exact List.mem_cons_of_mem _ (ih _ hc' cnt hrest)

/-- C3: when the lookup for a crime-type id fails for any reason,
`get_crime_type` swallows the failure and returns the synthetic fallback
with description "Crime Type #id" and severity score 1 while leaving the
cache unchanged (so a later call for the same id consults the oracle
again); the enclosing analysis still succeeds, with the fallback
`TopCrimeEntry` present for any of the id's aggregated top pairs. -/
theorem crime_type_fallback (lookup : ℤ → Except PyError CrimeTypeJson)
    (cache : Cache) (address : String) (resp : ApiResponse) (id : ℤ)
    (e : PyError) (hmiss : cache.lookup id = none)
    (hfail : lookup id = .error e) :
    (get_crime_type lookup cache id =
      ({ id := some id, description := some ("Crime Type #" ++ toString id),
         score := some 1 }, cache))
    ∧ (analyze_location lookup cache address resp).1.success = true
    ∧ ∀ cnt, (id, cnt) ∈ topPairs resp →
        fallbackEntry id cnt ∈ (analyze_location lookup cache address resp).1.topCrimes := by
  refine ⟨by simp [get_crime_type, hmiss, hfail], rfl, ?_⟩
  intro cnt hmem
  rw [analyze_topCrimes_eq]
  exact buildTopCrimes_fallback_mem lookup id e hfail (topPairs resp) cache hmiss cnt hmem

/-- Witness for C3 with an always-failing oracle on the sample response. -/
theorem crime_type_fallback_witness :
    (get_crime_type failingLookup [] 1 =
      ({ id := some 1, description := some ("Crime Type #" ++ toString (1 : ℤ)),
         score := some 1 }, []))
    ∧ (analyze_location failingLookup [] "Praca" sampleResponse).1.success = true
    ∧ fallbackEntry 1 9 ∈
        (analyze_location failingLookup [] "Praca" sampleResponse).1.topCrimes := by
  have h := crime_type_fallback failingLookup [] "Praca" sampleResponse 1
    (.runtimeError "Network error: simulated") rfl rfl
  exact ⟨h.1, h.2.1, h.2.2 9 (by decide)⟩

/-! ### C5 and C6: the highest-risk period tracking -/

theorem analyze_overallRisk_eq (lookup : ℤ → Except PyError CrimeTypeJson)
    (cache : Cache) (address : String) (resp : ApiResponse) :
    (analyze_location lookup cache address resp).1.analysis.overallRisk =
      (match (periodNames.foldl (processPeriod resp.content)
          ⟨[], [], none, -1⟩).highest_risk_period with
        | some p => classify_risk (periodNames.foldl (processPeriod resp.content)
            ⟨[], [], none, -1⟩).highest_risk_score p
        | none => "low") := rfl

theorem takeWhile_ne_dawn :
    (["dawn", "morning", "afternoon", "night"] : List String).takeWhile
      (fun m => m ≠ "dawn") = [] := rfl

theorem takeWhile_ne_morning :
    (["dawn", "morning", "afternoon", "night"] : List String).takeWhile
      (fun m => m ≠ "morning") = ["dawn"] := rfl

theorem takeWhile_ne_afternoon :
    (["dawn", "morning", "afternoon", "night"] : List String).takeWhile
      (fun m => m ≠ "afternoon") = ["dawn", "morning"] := rfl

theorem takeWhile_ne_night :
    (["dawn", "morning", "afternoon", "night"] : List String).takeWhile
      (fun m => m ≠ "night") = ["dawn", "morning", "afternoon"] := rfl

/-- C6 (amended): `highestRiskPeriod` is null exactly when every period's
effective score is at most the -1 sentinel (possible, since the API may
return negative scores); it is non-null whenever some period scores above
-1, which covers every response whose scores are all present-and-nonneg or
missing (defaulting to 0). -/
theorem highestRiskPeriod_none_iff (lookup : ℤ → Except PyError CrimeTypeJson)
    (cache : Cache) (address : String) (resp : ApiResponse) :
    (analyze_location lookup cache address resp).1.analysis.highestRiskPeriod = none ↔
      ∀ n ∈ periodNames, periodScore resp n ≤ -1 := by
  rw [analyze_hrp_eq]
  simp only [periodNames, List.foldl_cons, List.foldl_nil, processPeriod, periodScore]
  split_ifs <;> constructor <;> intro h <;>
    first
      | rfl
      | exact h.elim
      | exact absurd h (Option.some_ne_none _)
      | (intro n hn
         fin_cases hn <;> linarith)
      | (exfalso
         have c1 := h "dawn" (by simp)
         have c2 := h "morning" (by simp)
         have c3 := h "afternoon" (by simp)
         have c4 := h "night" (by simp)
         linarith)

/-- C5 (amended): whenever some period's effective score exceeds the -1
sentinel — always the case for nonnegative or defaulted scores —
`highestRiskPeriod` is the first period in the fixed order dawn, morning,
afternoon, night whose score equals the maximum period score: its score is
maximal and every period strictly before it scores strictly less, so on a
tie the earlier period wins. -/
theorem highestRiskPeriod_first_max (lookup : ℤ → Except PyError CrimeTypeJson)
    (cache : Cache) (address : String) (resp : ApiResponse)
    (h : ∃ n ∈ periodNames, periodScore resp n > -1) :
    ∃ p, (analyze_location lookup cache address resp).1.analysis.highestRiskPeriod =
        some p
      ∧ p ∈ periodNames
      ∧ (∀ q ∈ periodNames, periodScore resp q ≤ periodScore resp p)
      ∧ ∀ q ∈ periodNames.takeWhile (fun m => m ≠ p),
          periodScore resp q < periodScore resp p := by
  rw [analyze_hrp_eq]
  obtain ⟨n, hn, hsc⟩ := h
  simp only [periodNames] at hn
  simp only [periodScore] at hsc
  simp only [periodNames, List.foldl_cons, List.foldl_nil, processPeriod, periodScore]
  split_ifs <;>
    first
      | (refine ⟨_, rfl, by simp, ?_, ?_⟩
         · intro q hq
           fin_cases hq <;> linarith
         · simp only [takeWhile_ne_dawn, takeWhile_ne_morning, takeWhile_ne_afternoon,
             takeWhile_ne_night]
           intro q hq
           fin_cases hq <;> linarith)
      | (exfalso
         fin_cases hn <;> linarith)

/-- Witness for C5: on the dawn/night tie the theorem pins
`highestRiskPeriod` to "dawn". -/
theorem highestRiskPeriod_first_max_witness :
    (∃ n ∈ periodNames, periodScore tieResponse n > -1)
    ∧ (analyze_location failingLookup [] "x"
        tieResponse).1.analysis.highestRiskPeriod = some "dawn" := by
  have ed : periodScore tieResponse "dawn" = 100 := rfl
  have em : periodScore tieResponse "morning" = 0 := rfl
  have ea : periodScore tieResponse "afternoon" = 0 := rfl
  have en : periodScore tieResponse "night" = 100 := rfl
  have hex : ∃ n ∈ periodNames, periodScore tieResponse n > -1 :=
    ⟨"dawn", by simp [periodNames], by rw [ed]; norm_num⟩
  refine ⟨hex, ?_⟩
  obtain ⟨p, hp, hmem, hmax, hfirst⟩ :=
    highestRiskPeriod_first_max failingLookup [] "x" tieResponse hex
  rw [hp]
  simp only [periodNames, List.mem_cons, List.not_mem_nil, or_false,
    List.mem_singleton] at hmem
  rcases hmem with rfl | rfl | rfl | rfl
  · rfl
  · exfalso
    have hc := hmax "dawn" (by simp [periodNames])
    rw [ed, em] at hc
    norm_num at hc
  · exfalso
    have hc := hmax "dawn" (by simp [periodNames])
    rw [ed, ea] at hc
    norm_num at hc
  · exfalso
    have hc := hfirst "dawn" (by decide)
    rw [ed, en] at hc
    norm_num at hc

theorem hrp_negativeResponse_eval :
    (periodNames.foldl (processPeriod negativeResponse.content)
      ⟨[], [], none, -1⟩).highest_risk_period = none := by
  have h1 : contentGet negativeResponse.content "dawn" = ⟨some (-2), none, []⟩ := rfl
  have h2 : contentGet negativeResponse.content "morning" = ⟨some (-2), none, []⟩ := rfl
  have h3 : contentGet negativeResponse.content "afternoon" = ⟨some (-2), none, []⟩ := rfl
  have h4 : contentGet negativeResponse.content "night" = ⟨some (-2), none, []⟩ := rfl
  simp only [periodNames, List.foldl_cons, List.foldl_nil, processPeriod, h1, h2, h3, h4]
  norm_num

/-- C6 counterexample: on a response whose four periods all score -2 the
guard branch is reached — `highestRiskPeriod` is null and `overallRisk`
falls back to "low". -/
theorem highestRiskPeriod_null_example :
    (analyze_location failingLookup [] "x"
        negativeResponse).1.analysis.highestRiskPeriod = none
    ∧ (analyze_location failingLookup [] "x"
        negativeResponse).1.analysis.overallRisk = "low" := by
  constructor
  · rw [analyze_hrp_eq]
    exact hrp_negativeResponse_eval
  · rw [analyze_overallRisk_eq, hrp_negativeResponse_eval]

/-- C5 counterexample: on the all-negative response, "dawn" is the first
period attaining the maximum period score (all scores are equal), yet
`highestRiskPeriod` is null rather than "dawn". -/
theorem first_max_violated_example :
    (analyze_location failingLookup [] "x"
        negativeResponse).1.analysis.highestRiskPeriod = none
    ∧ ∀ q ∈ periodNames,
        periodScore negativeResponse q ≤ periodScore negativeResponse "dawn" := by
  constructor
  · rw [analyze_hrp_eq]
    exact hrp_negativeResponse_eval
  · intro q hq
    have ed : periodScore negativeResponse "dawn" = -2 := rfl
    have em : periodScore negativeResponse "morning" = -2 := rfl
    have ea : periodScore negativeResponse "afternoon" = -2 := rfl
    have en : periodScore negativeResponse "night" = -2 := rfl
    simp only [periodNames, List.mem_cons, List.not_mem_nil, or_false,
      List.mem_singleton] at hq
    rcases hq with rfl | rfl | rfl | rfl <;> simp [ed, em, ea, en]

/-! ### C7: the recommendation generator -/

theorem ite_singleton_sublist (c : Prop) [Decidable c] (a : String) :
    List.Sublist (if c then [a] else []) [a] := by
  split
  · exact List.Sublist.refl _
  · exact List.nil_sublist _

theorem ite_singleton_length (c : Prop) [Decidable c] (a : String) :
    (if c then [a] else []).length ≤ 1 := by
  split <;> simp

theorem risk_piece_sublist (r : String) :
    List.Sublist
      (if r = "high" then [extremeCautionAdvice]
       else if r = "medium" then [generalAwarenessAdvice] else [])
      [extremeCautionAdvice, generalAwarenessAdvice] := by
  split
  · exact (List.nil_sublist _).cons₂ _
  · split
    · exact (List.Sublist.refl _).cons _
    · exact List.nil_sublist _

theorem risk_piece_length (r : String) :
    (if r = "high" then [extremeCautionAdvice]
     else if r = "medium" then [generalAwarenessAdvice] else []).length ≤ 1 := by
  split
  · simp
  · split <;> simp

theorem buildAdviceList_sublist (tc : List TopCrimeEntry) (r : String) :
    List.Sublist (buildAdviceList tc r)
      [phoneAdvice, transitAdvice, vehicleAdvice, pedestrianAdvice,
       valuablesAdvice, extremeCautionAdvice, generalAwarenessAdvice] := by
  simp only [buildAdviceList]
  show List.Sublist _
    ((((((([] : List String) ++ [phoneAdvice]) ++ [transitAdvice]) ++
      [vehicleAdvice]) ++ [pedestrianAdvice]) ++ [valuablesAdvice]) ++
      [extremeCautionAdvice, generalAwarenessAdvice])
  exact ((((((List.nil_sublist ([] : List String)).append
    (ite_singleton_sublist _ phoneAdvice)).append
    (ite_singleton_sublist _ transitAdvice)).append
    (ite_singleton_sublist _ vehicleAdvice)).append
    (ite_singleton_sublist _ pedestrianAdvice)).append
    (ite_singleton_sublist _ valuablesAdvice)).append
    (risk_piece_sublist r)

theorem buildAdviceList_length (tc : List TopCrimeEntry) (r : String) :
    (buildAdviceList tc r).length ≤ 6 := by
  simp only [buildAdviceList]
  split_ifs <;> simp

theorem recommendations_cases (tc : List TopCrimeEntry) (r : String) :
    generate_recommendations tc r = [defaultAdvice] ∨
      (generate_recommendations tc r ≠ []
       ∧ List.Sublist (generate_recommendations tc r)
           [phoneAdvice, transitAdvice, vehicleAdvice, pedestrianAdvice,
            valuablesAdvice, extremeCautionAdvice, generalAwarenessAdvice]
       ∧ (generate_recommendations tc r).length ≤ 6) := by
  simp only [generate_recommendations]
  split
  · left
    next h => rw [h, List.nil_append]
  · right
    next h => exact ⟨h, buildAdviceList_sublist tc r, buildAdviceList_length tc r⟩

/-- C7: the seven checks run in fixed order, each appending at most one
advice string, so the result is a nonempty sublist (in check order) of the
advice strings with at most 6 entries; "Furto de Celular" with overall
risk "high" yields phone, valuables and extreme-caution advice in that
order (phone before extreme-caution), and no crimes with risk "low" yields
exactly the default advisory. -/
theorem recommendations_spec (tc : List TopCrimeEntry) (r : String) :
    (1 ≤ (generate_recommendations tc r).length)
    ∧ ((generate_recommendations tc r).length ≤ 6)
    ∧ List.Sublist (generate_recommendations tc r)
        [phoneAdvice, transitAdvice, vehicleAdvice, pedestrianAdvice,
         valuablesAdvice, extremeCautionAdvice, generalAwarenessAdvice,
         defaultAdvice]
    ∧ generate_recommendations [⟨1, "Furto de Celular", 5, 3⟩] "high" =
        [phoneAdvice, valuablesAdvice, extremeCautionAdvice]
    ∧ generate_recommendations [] "low" = [defaultAdvice] := by
  have hmaster :
      ([phoneAdvice, transitAdvice, vehicleAdvice, pedestrianAdvice,
        valuablesAdvice, extremeCautionAdvice, generalAwarenessAdvice] :
        List String) ++ [defaultAdvice] =
      [phoneAdvice, transitAdvice, vehicleAdvice, pedestrianAdvice,
       valuablesAdvice, extremeCautionAdvice, generalAwarenessAdvice,
       defaultAdvice] := rfl
  refine ⟨?_, ?_, ?_, by decide, by decide⟩
  · rcases recommendations_cases tc r with h | ⟨hne, _, _⟩
    · rw [h]
      simp
    · have := List.length_pos.mpr hne
      omega
  · rcases recommendations_cases tc r with h | ⟨_, _, hlen⟩
    · rw [h]
      simp
    · exact hlen
  · rcases recommendations_cases tc r with h | ⟨_, hsub, _⟩
    · rw [h]
      decide
    · exact hsub.trans (hmaster ▸ List.sublist_append_left _ [defaultAdvice])

/-! ### C8 and C9: the CLI contract -/

/-- C8: with the API key absent, `main` exits 1 printing nothing to stdout
and a configuration_error object to stderr; with the key present and the
analysis call succeeding it exits 0 printing the result to stdout and
nothing to stderr; and every run either succeeds that way or exits 1 with
stdout empty and an error kind among configuration_error, api_error,
unexpected_error on stderr. -/
theorem main_exit_spec (env : String → Option String)
    (apiOutcome : Except String ApiResponse)
    (lookup : ℤ → Except PyError CrimeTypeJson) (address : String) :
    (env "CRIMINAL_ANALYSIS_API_KEY" = none →
      main_run env apiOutcome lookup address =
        { exitCode := 1, stdout := none,
          stderrError := some ("configuration_error",
            "CRIMINAL_ANALYSIS_API_KEY environment variable is required") })
    ∧ (∀ key, env "CRIMINAL_ANALYSIS_API_KEY" = some key → key ≠ "" →
        ∀ resp, apiOutcome = .ok resp →
          main_run env apiOutcome lookup address =
            { exitCode := 0,
              stdout := some (analyze_location lookup [] address resp).1,
              stderrError := none })
    ∧ ((main_run env apiOutcome lookup address).exitCode = 0
          ∧ (main_run env apiOutcome lookup address).stdout ≠ none
          ∧ (main_run env apiOutcome lookup address).stderrError = none
        ∨ (main_run env apiOutcome lookup address).exitCode = 1
          ∧ (main_run env apiOutcome lookup address).stdout = none
          ∧ ∃ kind msg,
              (main_run env apiOutcome lookup address).stderrError = some (kind, msg)
              ∧ (kind = "configuration_error" ∨ kind = "api_error"
                  ∨ kind = "unexpected_error")) := by
  refine ⟨?_, ?_, ?_⟩
  · intro h
    simp [main_run, fetch_analysis, get_api_key, h]
  · intro key hk hne resp hok
    simp [main_run, fetch_analysis, get_api_key, hk, hne, hok]
  · unfold main_run fetch_analysis get_api_key
    cases henv : env "CRIMINAL_ANALYSIS_API_KEY" with
    | none =>
      right
      exact ⟨rfl, rfl, "configuration_error", _, rfl, Or.inl rfl⟩
    | some key =>
      by_cases hk : key = ""
      · subst hk
        right
        exact ⟨rfl, rfl, "configuration_error", _, rfl, Or.inl rfl⟩
      · cases apiOutcome with
        | ok resp =>
          left
          simp [hk]
        | error msg =>
          right
          simp only [if_neg hk]
          exact ⟨by trivial, by trivial, "api_error", msg, by trivial,
            Or.inr (Or.inl rfl)⟩

/-- Witness for C8: missing key gives the configuration_error exit. -/
theorem main_exit_spec_witness :
    main_run (fun _ => none) (.error "boom") failingLookup "addr" =
      { exitCode := 1, stdout := none,
        stderrError := some ("configuration_error",
          "CRIMINAL_ANALYSIS_API_KEY environment variable is required") } :=
  (main_exit_spec (fun _ => none) (.error "boom") failingLookup "addr").1 rfl

/-- C9: an API key that is set but empty is treated exactly like an absent
one — `get_api_key` raises the same configuration error (the check is
falsiness, not presence), so the program exits 1 with kind
configuration_error even though the variable exists in the environment. -/
theorem empty_api_key_config_error (env : String → Option String)
    (apiOutcome : Except String ApiResponse)
    (lookup : ℤ → Except PyError CrimeTypeJson) (address : String)
    (h : env "CRIMINAL_ANALYSIS_API_KEY" = some "") :
    get_api_key env = .error (.environmentError
        "CRIMINAL_ANALYSIS_API_KEY environment variable is required")
    ∧ get_api_key env = get_api_key (fun _ => none)
    ∧ main_run env apiOutcome lookup address =
        { exitCode := 1, stdout := none,
          stderrError := some ("configuration_error",
            "CRIMINAL_ANALYSIS_API_KEY environment variable is required") } := by
  refine ⟨?_, ?_, ?_⟩ <;> simp [get_api_key, main_run, fetch_analysis, h]

/-- Witness for C9 on a concrete environment holding an empty key. -/
theorem empty_api_key_config_error_witness :
    get_api_key (fun _ => some "") = .error (.environmentError
        "CRIMINAL_ANALYSIS_API_KEY environment variable is required")
    ∧ get_api_key (fun _ => some "") = get_api_key (fun _ => none)
    ∧ main_run (fun _ => some "") (.error "boom") failingLookup "addr" =
        { exitCode := 1, stdout := none,
          stderrError := some ("configuration_error",
            "CRIMINAL_ANALYSIS_API_KEY environment variable is required") } :=
  empty_api_key_config_error (fun _ => some "") (.error "boom") failingLookup "addr" rfl

end CriminalAnalysis
